import Mathlib

/-!
# Verification of the Market-Mood engine core

Shallow embedding of the two analytic engines of the `mamoengine`
repository: the trend-detection engine (`src/trend_detector.py`) and the
forecasting engine (`src/forecaster.py`).  Timestamps are embedded as
integers (hours for the trend detector, days for the forecaster), machine
floats as real numbers, SQL `NULL` as `Option`, and Python dictionaries as
structures.  Every definition is translated from the source code.
-/

noncomputable section

namespace Mamo

/-! ## Python numeric primitives -/

/-- Python `round(x)` to an integer: round half to even (banker's rounding),
as CPython does for floats, idealized over the reals. -/
def pyRoundInt (x : ℝ) : ℤ :=
  if x - ⌊x⌋ < 1/2 then ⌊x⌋
  else if 1/2 < x - ⌊x⌋ then ⌊x⌋ + 1
  else if Even ⌊x⌋ then ⌊x⌋ else ⌊x⌋ + 1

/-- Python `round(x, n)` for `n` decimal digits (result is again a float,
hence a real here). -/
def pyRound (x : ℝ) (n : ℕ) : ℝ := ((pyRoundInt (x * 10 ^ n) : ℝ)) / 10 ^ n

/-- Python `round(x, 0)`: rounds to an integral float. -/
def pyRound0 (x : ℝ) : ℝ := (pyRoundInt x : ℝ)

/-- The list `[f i, f (i+1), ..., f (i+k-1)]`: the shape of every
`for i in range(k)` accumulation loop in the source. -/
def rangeMapFrom {α : Type} (f : ℕ → α) (i : ℕ) : ℕ → List α
  | 0 => []
  | k+1 => f i :: rangeMapFrom f (i+1) k

lemma rangeMapFrom_length {α : Type} (f : ℕ → α) (i k : ℕ) :
    (rangeMapFrom f i k).length = k := by
  induction k generalizing i with
  | zero => rfl
  | succ k ih => simp [rangeMapFrom, ih]

lemma rangeMapFrom_getD {α : Type} (f : ℕ → α) (i k j : ℕ) (d : α) :
    (rangeMapFrom f i k).getD j d = if j < k then f (i + j) else d := by
  induction k generalizing i j with
  | zero => simp [rangeMapFrom]
  | succ k ih =>
      cases j with
      | zero => simp [rangeMapFrom]
      | succ j =>
          simp only [rangeMapFrom, List.getD_cons_succ, ih]
          by_cases h : j < k
          · rw [if_pos h, if_pos (by omega : j + 1 < k + 1)]
            congr 1
            omega
          · rw [if_neg h, if_neg (by omega : ¬ (j + 1 < k + 1))]

/-! ## Trend detection engine: data model

Source: `src/trend_detector.py`.  Article/tweet/search-volume rows as stored
in the SQLite database; `fetched_date` is embedded as an integer number of
hours, `sentiment_score IS NULL` as `Option.none`. -/

structure Article where
  title : String
  content : String
  source : String
  sentiment_score : Option ℝ
  fetched_date : ℤ

structure Tweet where
  text : String
  fetched_date : ℤ

structure GoogleTrend where
  keyword : String
  /-- 0–100-ish search-volume index; always nonnegative in the store. -/
  search_volume : ℕ
  fetched_date : ℤ

structure SalesRecord where
  category : String
  sales_count : ℝ
  date : ℤ

/-- The signal store (one SQLite database in the source). -/
structure DB where
  articles : List Article
  tweets : List Tweet
  google_trends : List GoogleTrend
  sales : List SalesRecord

/-! ## Keyword matching

SQL `LOWER(col) LIKE '%kw%'` and Python `kw.lower() in text.lower()` are
both case-insensitive substring containment. -/

/-- Does `pat` occur as a prefix of `l`? -/
def matchAt : List Char → List Char → Bool
  | [], _ => true
  | _ :: _, [] => false
  | a :: as, b :: bs => a == b && matchAt as bs

/-- Does `pat` occur as a contiguous substring of `l`? -/
def hasSub (pat : List Char) : List Char → Bool
  | [] => matchAt pat []
  | b :: bs => matchAt pat (b :: bs) || hasSub pat bs

/-- Lowercased character list of a string (`s.lower()` / `LOWER(s)`). -/
def lowerChars (s : String) : List Char := s.toList.map Char.toLower

/-- Case-insensitive substring test, the embedding of both Python
`kw.lower() in text.lower()` and SQL `LOWER(text) LIKE '%kw%'`. -/
def kwIn (kw text : String) : Bool :=
  hasSub (lowerChars kw) (lowerChars text)

/-! ## TrendDetector.score_trend (src/trend_detector.py lines 292-326) -/

/-- `TrendDetector.score_trend`.  `cross_source_count` and `mention_count`
are the source's Python ints, nonnegative at every call site. -/
def score_trend (velocity growth_rate : ℝ) (cross_source_count mention_count : ℕ) : ℝ :=
  let growth_factor := min (|growth_rate| / 100) 2.0
  let cross_source_weight := min ((cross_source_count : ℝ) / 3) 1.5
  let mention_factor := min (Real.log ((mention_count : ℝ) + 1) / Real.log 100) 1.5
  let base_strength := Real.sqrt (|velocity| * growth_factor * cross_source_weight)
      * mention_factor
  min (base_strength * 50) 100

/-- `TrendDetector._classify_trend` (lines 328-352). -/
def classify_trend (strength velocity : ℝ) : String :=
  if 70 < strength then
    if 0 < velocity then "STRONG EMERGING TREND (POSITIVE)"
    else "STRONG EMERGING TREND (NEGATIVE)"
  else if 50 < strength then
    if 0 < velocity then "MODERATE TREND (POSITIVE)"
    else "MODERATE TREND (NEGATIVE)"
  else if 30 < strength then "WEAK TREND"
  else "STABLE / NO TREND"

/-! ## Velocity and growth (lines 191-290)

The two SQL half-window queries of `get_trend_velocity` and
`get_growth_rate`: `cutoff_time = now - window_hours`,
`midpoint = now - window_hours // 2` (integer division; `/` below is `Int`
division, which agrees with Python `//` on the nonnegative windows the
source passes). -/

/-- `LOWER(title) LIKE '%kw%' OR LOWER(content) LIKE '%kw%'`. -/
def likeMatch (keyword : String) (a : Article) : Bool :=
  kwIn keyword a.title || kwIn keyword a.content

/-- `AVG(sentiment_score)`: SQL aggregate, `NULL` (`none`) on an empty row
set. -/
def sqlAvg : List ℝ → Option ℝ
  | [] => none
  | scores => some (scores.sum / scores.length)

/-- The source coalesces the query result with
`r['avg_sentiment'] if r and r['avg_sentiment'] else 0.0`; Python truthiness
maps both SQL `NULL` and `0.0` to `0.0`, which over the reals is
`Option.getD 0`. -/
def coalesce0 (o : Option ℝ) : ℝ := o.getD 0

/-- Sentiment scores of the articles matching `keyword` with
`lo ≤ fetched_date` (and `fetched_date < hi` when `hi` is given); the query
also filters `sentiment_score IS NOT NULL`. -/
def halfScores (db : DB) (keyword : String) (lo : ℤ) (hi : Option ℤ) : List ℝ :=
  (db.articles.filter (fun a =>
      likeMatch keyword a && decide (lo ≤ a.fetched_date) &&
        (match hi with
         | none => true
         | some h => decide (a.fetched_date < h)))).filterMap (·.sentiment_score)

/-- `COUNT(*)` of the articles matching `keyword` in the given half window
(no sentiment filter in the growth-rate queries). -/
def halfCount (db : DB) (keyword : String) (lo : ℤ) (hi : Option ℤ) : ℕ :=
  (db.articles.filter (fun a =>
      likeMatch keyword a && decide (lo ≤ a.fetched_date) &&
        (match hi with
         | none => true
         | some h => decide (a.fetched_date < h)))).length

/-- Average sentiment over the recent half `[now - wh/2, ∞)` of the window,
coalesced to `0.0`. -/
def recentAvg (db : DB) (now : ℤ) (keyword : String) (wh : ℤ) : ℝ :=
  coalesce0 (sqlAvg (halfScores db keyword (now - wh / 2) none))

/-- Average sentiment over the older half `[now - wh, now - wh/2)` of the
window, coalesced to `0.0`. -/
def olderAvg (db : DB) (now : ℤ) (keyword : String) (wh : ℤ) : ℝ :=
  coalesce0 (sqlAvg (halfScores db keyword (now - wh) (some (now - wh / 2))))

/-- `TrendDetector.get_trend_velocity` (lines 191-244). -/
def get_trend_velocity (db : DB) (now : ℤ) (keyword : String) (wh : ℤ) : ℝ :=
  let recent_sentiment := recentAvg db now keyword wh
  let older_sentiment := olderAvg db now keyword wh
  if older_sentiment = 0 then
    if 0 < recent_sentiment then 1
    else if recent_sentiment < 0 then -1
    else 0
  else (recent_sentiment - older_sentiment) / |older_sentiment|

/-- `TrendDetector.get_growth_rate` (lines 246-290). -/
def get_growth_rate (db : DB) (now : ℤ) (keyword : String) (wh : ℤ) : ℝ :=
  let recent_count := halfCount db keyword (now - wh / 2) none
  let older_count := halfCount db keyword (now - wh) (some (now - wh / 2))
  if older_count = 0 then
    if 0 < recent_count then 100 else 0
  else (((recent_count : ℝ) - older_count) / older_count) * 100

/-! ## Keyword aggregation (`TrendDetector._extract_keywords`, lines 96-189) -/

/-- The fixed tracked-keyword vocabulary (lines 116-120). -/
def tracked_keywords : List String :=
  ["iPhone", "OnePlus", "Samsung", "Xiaomi", "Realme",
   "Amazon", "Flipkart", "laptop", "phone", "smartphone",
   "gadget", "fashion", "ecommerce", "sale", "discount"]

/-- Articles in the window (with a sentiment score, as the query filters
`sentiment_score IS NOT NULL`) whose lowercased `title content`
concatenation contains the keyword. -/
def articleHits (db : DB) (now wh : ℤ) (kw : String) : List Article :=
  db.articles.filter (fun a =>
    decide (now - wh ≤ a.fetched_date) && a.sentiment_score.isSome &&
      kwIn kw (a.title ++ " " ++ a.content))

/-- Tweets in the window whose lowercased text contains the keyword. -/
def tweetHits (db : DB) (now wh : ℤ) (kw : String) : List Tweet :=
  db.tweets.filter (fun t =>
    decide (now - wh ≤ t.fetched_date) && kwIn kw t.text)

/-- Google-trends rows in the window whose stored keyword is exactly a
tracked keyword (lines 171-175 match `trend['keyword']` against the
vocabulary by exact equality). -/
def gtHits (db : DB) (now wh : ℤ) (kw : String) : List GoogleTrend :=
  db.google_trends.filter (fun g =>
    decide (now - wh ≤ g.fetched_date) && g.keyword == kw)

/-- Accumulated mention count for a keyword: one per matching article, one
per matching tweet, `search_volume // 10` per matching trends row. -/
def mentionCount (db : DB) (now wh : ℤ) (kw : String) : ℕ :=
  (articleHits db now wh kw).length + (tweetHits db now wh kw).length +
    ((gtHits db now wh kw).map (fun g => g.search_volume / 10)).sum

/-- The contributing-source set, listed in the loop order of the source
(articles, then tweets, then google trends); the source stores a Python
set, whose iteration order no consumer relies on. -/
def sourceList (db : DB) (now wh : ℤ) (kw : String) : List String :=
  (if (articleHits db now wh kw).isEmpty then [] else ["news"]) ++
  (if (tweetHits db now wh kw).isEmpty then [] else ["twitter"]) ++
  (if (gtHits db now wh kw).isEmpty then [] else ["google_trends"])

/-- Average of the collected sentiment samples, `0.0` when there are none
(line 185-186). -/
def avgSentiment (db : DB) (now wh : ℤ) (kw : String) : ℝ :=
  match (articleHits db now wh kw).filterMap (·.sentiment_score) with
  | [] => 0
  | scores => scores.sum / scores.length

/-! ## detect_trends (lines 36-94) -/

/-- One detected-trend record (the dict built at lines 76-86; `strength`,
`velocity`, `growth_rate` and `avg_sentiment` are stored rounded to 2, 3, 1
and 3 digits respectively, while `signal` is classified from the raw
values). -/
structure TrendRec where
  keyword : String
  strength : ℝ
  velocity : ℝ
  growth_rate : ℝ
  sources : List String
  mention_count : ℕ
  avg_sentiment : ℝ
  signal : String
  detected_at : ℤ

/-- Build the trend record for one keyword (lines 57-88). -/
def mkTrend (db : DB) (now wh : ℤ) (kw : String) : TrendRec :=
  let velocity := get_trend_velocity db now kw wh
  let growth_rate := get_growth_rate db now kw wh
  let cross_source_count := (sourceList db now wh kw).length
  let mentions := mentionCount db now wh kw
  let strength := score_trend velocity growth_rate cross_source_count mentions
  { keyword := kw
    strength := pyRound strength 2
    velocity := pyRound velocity 3
    growth_rate := pyRound growth_rate 1
    sources := sourceList db now wh kw
    mention_count := mentions
    avg_sentiment := pyRound (avgSentiment db now wh kw) 3
    signal := classify_trend strength velocity
    detected_at := now }

/-- Stable insertion into a strength-descending list: a record goes after
every earlier record of greater-or-equal strength. -/
def insertDesc (t : TrendRec) : List TrendRec → List TrendRec
  | [] => [t]
  | h :: rest => if h.strength < t.strength then t :: h :: rest else h :: insertDesc t rest

/-- `trends.sort(key=strength, reverse=True)`: Python sort is stable. -/
def sortByStrength (l : List TrendRec) : List TrendRec :=
  l.foldl (fun acc t => insertDesc t acc) []

/-- `TrendDetector.detect_trends`: keywords with `mentions > 0` become
trend records, sorted strength-descending.  (The pre-sort record order
follows the tracked vocabulary; the source's pre-sort order is the dict
insertion order, and no consumer observes either beyond the stable sort.) -/
def detect_trends (db : DB) (now : ℤ) (window_hours : ℤ) : List TrendRec :=
  sortByStrength
    ((tracked_keywords.filter
        (fun kw => decide (0 < mentionCount db now window_hours kw))).map
      (mkTrend db now window_hours))

/-! ## Cross-source agreement and early warnings (lines 354-470) -/

/-- Result of `TrendDetector.check_cross_source_agreement` (the `sources`
dict becomes the three count fields). -/
structure Agreement where
  keyword : String
  agreement : Bool
  source_count : ℕ
  news_count : ℕ
  twitter_count : ℕ
  google_count : ℕ
  confidence : String

/-- `TrendDetector.check_cross_source_agreement` (lines 354-416): per-source
match counts over a lookback of `hours`, agreement when at least two
sources have a positive count.  The google-trends query compares
`LOWER(keyword)` against the lowercased argument. -/
def check_cross_source_agreement (db : DB) (now : ℤ) (keyword : String) (hours : ℤ) :
    Agreement :=
  let cutoff := now - hours
  let news := (db.articles.filter (fun a =>
      likeMatch keyword a && decide (cutoff ≤ a.fetched_date))).length
  let twitter := (db.tweets.filter (fun t =>
      kwIn keyword t.text && decide (cutoff ≤ t.fetched_date))).length
  let google := (db.google_trends.filter (fun g =>
      lowerChars g.keyword == lowerChars keyword && decide (cutoff ≤ g.fetched_date))).length
  let source_count := (if 0 < news then 1 else 0) + (if 0 < twitter then 1 else 0) +
      (if 0 < google then 1 else 0)
  { keyword := keyword
    agreement := decide (2 ≤ source_count)
    source_count := source_count
    news_count := news
    twitter_count := twitter
    google_count := google
    confidence :=
      if 3 ≤ source_count then "HIGH" else if source_count = 2 then "MEDIUM" else "LOW" }

/-- `TrendDetector._generate_recommendation` (lines 455-470), applied to the
stored (rounded) record fields. -/
def generate_recommendation (t : TrendRec) : String :=
  if 0.5 < t.velocity ∧ 0.3 < t.avg_sentiment then
    "OPPORTUNITY: " ++ t.keyword ++
      " showing strong positive momentum. Consider increasing inventory/marketing."
  else if 0.5 < t.velocity ∧ t.avg_sentiment < -0.3 then
    "RISK: " ++ t.keyword ++ " showing negative sentiment surge. Review product quality/pricing."
  else if t.velocity < -0.5 ∧ 0 < t.avg_sentiment then
    "CAUTION: " ++ t.keyword ++ " positive sentiment declining. Monitor closely for issues."
  else if 0.3 < |t.velocity| then
    "MONITOR: " ++ t.keyword ++ " showing significant sentiment shift. Investigate cause."
  else "WATCH: " ++ t.keyword ++ " trending. Continue monitoring."

/-- One early-warning record (the dict built at lines 440-449). -/
structure WarningRec where
  keyword : String
  alert_level : String
  strength : ℝ
  velocity : ℝ
  sources : List String
  confidence : String
  recommendation : String
  timestamp : ℤ

/-- The warning built for a qualifying trend (lines 440-449). -/
def mkWarning (db : DB) (now : ℤ) (t : TrendRec) : WarningRec :=
  { keyword := t.keyword
    alert_level := if 70 < t.strength then "HIGH" else "MEDIUM"
    strength := t.strength
    velocity := t.velocity
    sources := t.sources
    confidence := (check_cross_source_agreement db now t.keyword 24).confidence
    recommendation := generate_recommendation t
    timestamp := now }

/-- The filtering loop of `get_early_warnings` (lines 431-450). -/
def warnLoop (db : DB) (now : ℤ) (threshold : ℝ) : List TrendRec → List WarningRec
  | [] => []
  | t :: rest =>
      if threshold ≤ t.strength then
        if 0.5 < |t.velocity| ∧
            (check_cross_source_agreement db now t.keyword 24).agreement = true then
          mkWarning db now t :: warnLoop db now threshold rest
        else warnLoop db now threshold rest
      else warnLoop db now threshold rest

/-- `TrendDetector.get_early_warnings` (lines 418-453): filters the trends
detected over a fixed 48-hour window. -/
def get_early_warnings (db : DB) (now : ℤ) (threshold : ℝ) : List WarningRec :=
  warnLoop db now threshold (detect_trends db now 48)

/-! ## Forecasting engine: data model (src/forecaster.py)

Dates are embedded as integer day numbers.  A prepared daily series is a
list of (day, value) pairs. -/

/-- One forecast point; ensemble rows additionally retain the two
producers' rounded values (lines 270-271). -/
structure FPoint where
  date : ℤ
  value : ℝ
  lower_bound : ℝ
  upper_bound : ℝ
  arima_value : Option ℝ := none
  prophet_value : Option ℝ := none
deriving Inhabited

/-- A diagnostic value in `model_params`. -/
inductive PVal where
  | str : String → PVal
  | num : ℝ → PVal
  | strs : List String → PVal

/-- A forecast-result dict.  Keys the Python dict lacks are `none`: the
empty-data branch of `_simple_forecast` has no `model_params`, and the
empty-data branch of `forecast_category` adds no metadata keys. -/
structure ForecastResult where
  model : String
  forecasts : List FPoint
  model_params : Option (List (String × PVal)) := none
  category : Option String := none
  forecast_date : Option ℤ := none
  historical_data_points : Option ℕ := none
  trend : Option String := none

/-! ## Forecaster.prepare_time_series_data (lines 55-95) -/

/-- Same-day sales summed (`groupby('date').agg('sum')`). -/
def sumAt (rows : List SalesRecord) (d : ℤ) : ℝ :=
  ((rows.filter (fun r => r.date == d)).map (·.sales_count)).sum

def hasDay (rows : List SalesRecord) (d : ℤ) : Bool :=
  rows.any (fun r => r.date == d)

/-- Forward-filled value at day `d`, where `n` bounds the distance back to
the first observed day: a missing day takes the previous day's value
(`reindex(...).fillna(method='ffill')`). -/
def ffillVal (rows : List SalesRecord) : ℕ → ℤ → ℝ
  | 0, d => sumAt rows d
  | n+1, d => if hasDay rows d then sumAt rows d else ffillVal rows n (d - 1)

def minDate (rows : List SalesRecord) : ℤ :=
  match rows.map (·.date) with
  | [] => 0
  | d :: ds => ds.foldl min d

def maxDate (rows : List SalesRecord) : ℤ :=
  match rows.map (·.date) with
  | [] => 0
  | d :: ds => ds.foldl max d

/-- `Forecaster.prepare_time_series_data`: sales rows of one category with
`date ≥ now - days`, summed per day, reindexed onto every calendar day of
`[min_date, max_date]` with gaps forward-filled; empty when no rows
match. -/
def prepare_time_series_data (db : DB) (now : ℤ) (category : String) (days : ℤ) :
    List (ℤ × ℝ) :=
  let rows := db.sales.filter (fun r =>
      r.category == category && decide (now - days ≤ r.date))
  if rows.isEmpty then []
  else
    let lo := minDate rows
    let hi := maxDate rows
    rangeMapFrom (fun i => (lo + i, ffillVal rows i (lo + i))) 0 ((hi - lo).toNat + 1)

/-! ## Forecast producers -/

def seriesVals (data : List (ℤ × ℝ)) : List ℝ := data.map Prod.snd

/-- `data['date'].max()` (call sites guarantee nonempty data). -/
def maxFst (data : List (ℤ × ℝ)) : ℤ :=
  match data.map Prod.fst with
  | [] => 0
  | d :: ds => ds.foldl max d

def listMean (l : List ℝ) : ℝ := l.sum / l.length

/-- pandas `Series.std()`: sample standard deviation (`ddof=1`).  pandas
yields `NaN` on a single observation; that unencodable float is modelled
as `0` and arises only for a one-point averaging window. -/
def sampleStd (l : List ℝ) : ℝ :=
  if l.length ≤ 1 then 0
  else Real.sqrt ((l.map (fun x => (x - listMean l) ^ 2)).sum / ((l.length : ℝ) - 1))

/-- The averaging window of `_simple_forecast`: the last `min(7, len)`
values (`data['sales_count'].tail(window)`). -/
def tailWindow (data : List (ℤ × ℝ)) : List ℝ :=
  (seriesVals data).drop (data.length - min 7 data.length)

/-- The per-step forecast value of `_simple_forecast` (lines 326-330):
the window average, plus `i` times the slope
`(iloc[-1] - iloc[-3]) / 3` when the series has at least 3 points. -/
def simpleFV (data : List (ℤ × ℝ)) (i : ℕ) : ℝ :=
  if 3 ≤ data.length then
    listMean (tailWindow data) + (i : ℝ) *
      (((seriesVals data).getD (data.length - 1) 0 -
        (seriesVals data).getD (data.length - 3) 0) / 3)
  else listMean (tailWindow data)

/-- The per-step point of `_simple_forecast` on nonempty data (lines
332-337): value and lower bound clamped at 0, upper bound not clamped. -/
def simplePoint (data : List (ℤ × ℝ)) (i : ℕ) : FPoint :=
  { date := maxFst data + i + 1
    value := max 0 (pyRound0 (simpleFV data i))
    lower_bound := max 0 (pyRound0 (simpleFV data i - 2 * sampleStd (tailWindow data)))
    upper_bound := pyRound0 (simpleFV data i + 2 * sampleStd (tailWindow data)) }

/-- `Forecaster._simple_forecast` (lines 287-346), the naive
moving-average producer.  `periods` is a Python int and
`for i in range(periods)` iterates `periods.toNat` times.  On empty data:
zero-valued points dated from `now` (and no `model_params` key). -/
def simple_forecast (now : ℤ) (data : List (ℤ × ℝ)) (periods : ℤ) : ForecastResult :=
  if data.isEmpty then
    { model := "Simple"
      forecasts := rangeMapFrom (fun i =>
        { date := now + i + 1, value := 0, lower_bound := 0, upper_bound := 0 })
        0 periods.toNat }
  else
    { model := "Simple"
      forecasts := rangeMapFrom (simplePoint data) 0 periods.toNat
      model_params := some [("method", PVal.str "moving_average"),
                            ("window", PVal.num (min 7 data.length))] }

/-- The per-step output of a fitted external ARIMA model (statsmodels is an
external collaborator of the core): forecast mean, 95% confidence interval,
and the information criteria recorded in `model_params`. -/
structure ArimaFit where
  mean : ℕ → ℝ
  ciLower : ℕ → ℝ
  ciUpper : ℕ → ℝ
  aic : ℝ
  bic : ℝ

/-- The per-step output of a fitted external Prophet model. -/
structure ProphetFit where
  yhat : ℕ → ℝ
  yhatLower : ℕ → ℝ
  yhatUpper : ℕ → ℝ

/-- Availability of the two optional model dependencies and the outcome of
fitting them on a series; `none` embeds a fit that raised (the exception is
caught and turned into a fallback at lines 152-154 and 221-223). -/
structure Env where
  arima_available : Bool
  prophet_available : Bool
  arima_fit : List (ℤ × ℝ) → Option ArimaFit
  prophet_fit : List (ℤ × ℝ) → Option ProphetFit

/-- `Forecaster.forecast_arima` (lines 97-154): `_simple_forecast` when the
dependency is unavailable, the series is empty or shorter than 7, or the
fit raises; otherwise the fitted forecast with value and lower bound
clamped at 0 and the upper bound taken unclamped from the interval. -/
def forecast_arima (env : Env) (now : ℤ) (data : List (ℤ × ℝ)) (periods : ℤ) :
    ForecastResult :=
  if !env.arima_available || data.isEmpty || decide (data.length < 7) then
    simple_forecast now data periods
  else
    match env.arima_fit data with
    | none => simple_forecast now data periods
    | some f =>
        { model := "ARIMA"
          forecasts := rangeMapFrom (fun i =>
            { date := maxFst data + i + 1
              value := max 0 (f.mean i)
              lower_bound := max 0 (f.ciLower i)
              upper_bound := f.ciUpper i }) 0 periods.toNat
          model_params := some [("order", PVal.str "(1,1,1)"),
                                ("aic", PVal.num f.aic), ("bic", PVal.num f.bic)] }

/-- `Forecaster.forecast_prophet` (lines 156-223), same fallback ladder as
the ARIMA producer. -/
def forecast_prophet (env : Env) (now : ℤ) (data : List (ℤ × ℝ)) (periods : ℤ) :
    ForecastResult :=
  if !env.prophet_available || data.isEmpty || decide (data.length < 7) then
    simple_forecast now data periods
  else
    match env.prophet_fit data with
    | none => simple_forecast now data periods
    | some f =>
        { model := "Prophet"
          forecasts := rangeMapFrom (fun i =>
            { date := maxFst data + i + 1
              value := max 0 (f.yhat i)
              lower_bound := max 0 (f.yhatLower i)
              upper_bound := f.yhatUpper i }) 0 periods.toNat
          model_params := some [("seasonality", PVal.str "daily_weekly"),
                                ("interval_width", PVal.num 0.95)] }

/-- `Forecaster.forecast_ensemble` (lines 225-285): `_simple_forecast`
below 7 observations, otherwise the 0.4/0.6-weighted combination of the
ARIMA and Prophet producers, each combined coordinate rounded with Python
`round(x, 0)` and the bounds widened to the envelope of the two
intervals. -/
def forecast_ensemble (env : Env) (now : ℤ) (data : List (ℤ × ℝ)) (periods : ℤ) :
    ForecastResult :=
  if data.isEmpty || decide (data.length < 7) then simple_forecast now data periods
  else
    let arima_forecast := forecast_arima env now data periods
    let prophet_forecast := forecast_prophet env now data periods
    { model := "Ensemble"
      forecasts := rangeMapFrom (fun i =>
        let a := arima_forecast.forecasts.getD i default
        let p := prophet_forecast.forecasts.getD i default
        let ensemble_value := 0.4 * a.value + 0.6 * p.value
        { date := a.date
          value := pyRound0 ensemble_value
          lower_bound := pyRound0 (max 0 (min a.lower_bound p.lower_bound))
          upper_bound := pyRound0 (max a.upper_bound p.upper_bound)
          arima_value := some (pyRound0 a.value)
          prophet_value := some (pyRound0 p.value) }) 0 periods.toNat
      model_params := some [("arima_weight", PVal.num 0.4),
                            ("prophet_weight", PVal.num 0.6),
                            ("models", PVal.strs ["ARIMA(1,1,1)", "Prophet"])] }

/-- `Forecaster.forecast_category` (lines 348-393): prepares 14 days of
history, dispatches on the (lowercased) model name, and attaches metadata —
except on the empty-data early return, which passes `_simple_forecast`'s
result through unchanged.  The trend label compares the last and first
prepared observations. -/
def forecast_category (env : Env) (db : DB) (now : ℤ) (category : String)
    (days_ahead : ℤ) (model : String) : ForecastResult :=
  let data := prepare_time_series_data db now category 14
  if data.isEmpty then simple_forecast now data days_ahead
  else
    let forecast :=
      if lowerChars model == lowerChars "arima" then forecast_arima env now data days_ahead
      else if lowerChars model == lowerChars "prophet" then forecast_prophet env now data days_ahead
      else if lowerChars model == lowerChars "ensemble" then forecast_ensemble env now data days_ahead
      else simple_forecast now data days_ahead
    { forecast with
        category := some category
        forecast_date := some now
        historical_data_points := some data.length
        trend := some
          (if 2 ≤ data.length then
            if (seriesVals data).getD 0 0 < (seriesVals data).getD (data.length - 1) 0
            then "UP" else "DOWN"
          else "STABLE") }

/-- The fixed category list of `forecast_all_categories` (line 405). -/
def forecast_categories : List String := ["phones", "laptops", "fashion", "home", "food"]

/-- `Forecaster.forecast_all_categories` (lines 395-416): one ensemble
forecast per fixed category.  (The per-category `try/except` that would map
an exception to an error dict never fires: every embedded path is total.) -/
def forecast_all_categories (env : Env) (db : DB) (now : ℤ) (days_ahead : ℤ) :
    List (String × ForecastResult) :=
  forecast_categories.map
    (fun c => (c, forecast_category env db now c days_ahead "ensemble"))

/-! ## Concrete instances used by witnesses and counterexamples -/

/-- The empty signal store. -/
def emptyDB : DB := ⟨[], [], [], []⟩

/-- An environment with neither optional model dependency installed. -/
def zeroEnv : Env := ⟨false, false, fun _ => none, fun _ => none⟩

/-- A store holding one recent positive-sentiment article mentioning
"phone". -/
def velocityDB : DB := ⟨[⟨"phone", "", "news", some 0.5, 0⟩], [], [], []⟩

/-- A store with two equal consecutive daily sales records for
"phones". -/
def salesPairDB : DB := ⟨[], [], [], [⟨"phones", 5, 0⟩, ⟨"phones", 5, 1⟩]⟩

/-- A three-day strictly declining daily series. -/
def declineSeries : List (ℤ × ℝ) := [(0, 4), (1, 2), (2, 0)]

/-- A constant seven-day daily series. -/
def weekSeries : List (ℤ × ℝ) :=
  [(0, 1), (1, 1), (2, 1), (3, 1), (4, 1), (5, 1), (6, 1)]

/-- An environment whose ARIMA fit forecasts a constant 0 and whose Prophet
fit forecasts a constant 1. -/
def constEnv : Env :=
  ⟨true, true,
   fun _ => some ⟨fun _ => 0, fun _ => 0, fun _ => 0, 0, 0⟩,
   fun _ => some ⟨fun _ => 1, fun _ => 1, fun _ => 1⟩⟩

/-! # Helper lemmas -/

lemma pyRoundInt_eq_floor {x : ℝ} {n : ℤ} (h1 : (n : ℝ) ≤ x) (h2 : x < n + 1/2) :
    pyRoundInt x = n := by
  have hf : ⌊x⌋ = n := Int.floor_eq_iff.mpr ⟨h1, by linarith⟩
  unfold pyRoundInt
  rw [hf, if_pos (by linarith)]

lemma pyRoundInt_eq_ceil {x : ℝ} {n : ℤ} (h1 : (n : ℝ) + 1/2 < x) (h2 : x < n + 1) :
    pyRoundInt x = n + 1 := by
  have hf : ⌊x⌋ = n := Int.floor_eq_iff.mpr ⟨by linarith, by linarith⟩
  unfold pyRoundInt
  rw [hf, if_neg (by linarith), if_pos (by linarith)]

lemma pyRoundInt_intCast (n : ℤ) : pyRoundInt (n : ℝ) = n := by
  apply pyRoundInt_eq_floor le_rfl
  linarith

lemma pyRoundInt_mono {x y : ℝ} (h : x ≤ y) : pyRoundInt x ≤ pyRoundInt y := by
  have hf : ⌊x⌋ ≤ ⌊y⌋ := Int.floor_le_floor h
  by_cases hfe : ⌊x⌋ = ⌊y⌋
  · unfold pyRoundInt
    have hxy : x - ⌊x⌋ ≤ y - ⌊y⌋ := by rw [hfe]; linarith
    split_ifs <;> first
      | omega
      | (exfalso; rw [hfe] at *; first | linarith | simp_all)
  · have hlt : ⌊x⌋ + 1 ≤ ⌊y⌋ := by omega
    have h1 : pyRoundInt x ≤ ⌊x⌋ + 1 := by
      unfold pyRoundInt; split_ifs <;> omega
    have h2 : ⌊y⌋ ≤ pyRoundInt y := by
      unfold pyRoundInt; split_ifs <;> omega
    omega

lemma pyRound0_intCast (n : ℤ) : pyRound0 (n : ℝ) = n := by
  simp [pyRound0, pyRoundInt_intCast]

lemma pyRoundInt_nonneg {x : ℝ} (h : 0 ≤ x) : 0 ≤ pyRoundInt x := by
  have h0 : pyRoundInt ((0 : ℤ) : ℝ) = 0 := pyRoundInt_intCast 0
  have := pyRoundInt_mono h
  simp only [Int.cast_zero] at h0
  omega

lemma pyRound0_nonneg {x : ℝ} (h : 0 ≤ x) : 0 ≤ pyRound0 x := by
  unfold pyRound0
  exact_mod_cast pyRoundInt_nonneg h

lemma pyRound0_mono {x y : ℝ} (h : x ≤ y) : pyRound0 x ≤ pyRound0 y := by
  unfold pyRound0
  exact_mod_cast pyRoundInt_mono h

lemma pyRound0_zero : pyRound0 0 = 0 := by
  rw [show (0 : ℝ) = ((0 : ℤ) : ℝ) by norm_num, pyRound0_intCast]



/-! # Claim theorems: trend scoring -/

/-- Claim C1: with `velocity = 1.0`, `growth_rate = 100`,
`cross_source_count = 3` and `mention_count = 99`, the intermediate
factors of `score_trend` are all `1` (`growth_factor = min(100/100, 2)`,
`cross_source_weight = min(3/3, 1.5)`,
`mention_factor = min(ln 100 / ln 100, 1.5)`), the base strength is
`sqrt 1 * 1 = 1`, and the returned strength is exactly `50`. -/
theorem score_trend_reference_value : score_trend 1 100 3 99 = 50 := by
  have hne : Real.log (100 : ℝ) ≠ 0 :=
    Real.log_ne_zero_of_pos_of_ne_one (by norm_num) (by norm_num)
  simp only [score_trend]
  rw [show |(100 : ℝ)| = 100 from abs_of_pos (by norm_num), abs_one]
  rw [show ((99 : ℕ) : ℝ) + 1 = 100 by norm_num, div_self hne]
  rw [show min ((100 : ℝ) / 100) 2.0 = 1 by norm_num]
  rw [show min (((3 : ℕ) : ℝ) / 3) 1.5 = 1 by norm_num]
  rw [show min (1 : ℝ) 1.5 = 1 by norm_num]
  rw [show (1 : ℝ) * 1 * 1 = 1 by norm_num, Real.sqrt_one]
  norm_num

/-- Claim C6: for every real (hence finite, non-NaN) velocity and growth
rate and every mention and cross-source count, `score_trend` returns a
value in the closed interval `[0, 100]`. -/
theorem score_trend_bounded (velocity growth_rate : ℝ)
    (cross_source_count mention_count : ℕ) :
    0 ≤ score_trend velocity growth_rate cross_source_count mention_count ∧
      score_trend velocity growth_rate cross_source_count mention_count ≤ 100 := by
  unfold score_trend
  constructor
  · apply le_min _ (by norm_num)
    apply mul_nonneg _ (by norm_num)
    apply mul_nonneg (Real.sqrt_nonneg _)
    apply le_min _ (by norm_num)
    apply div_nonneg
    · apply Real.log_nonneg
      have : (0 : ℝ) ≤ (mention_count : ℝ) := Nat.cast_nonneg _
      linarith
    · exact Real.log_nonneg (by norm_num)
  · exact min_le_right _ _


/-- Claim C7: whenever the older-half average sentiment is exactly 0,
`get_trend_velocity` returns +1.0 / -1.0 / 0.0 according to the sign of the
recent-half average; otherwise it returns the difference of the two
averages divided by the absolute value of the older average. -/
theorem velocity_zero_older_rule (db : DB) (now : ℤ) (kw : String) (wh : ℤ) :
    (olderAvg db now kw wh = 0 →
      get_trend_velocity db now kw wh =
        (if 0 < recentAvg db now kw wh then 1
         else if recentAvg db now kw wh < 0 then -1 else 0)) ∧
    (olderAvg db now kw wh ≠ 0 →
      get_trend_velocity db now kw wh =
        (recentAvg db now kw wh - olderAvg db now kw wh) / |olderAvg db now kw wh|) := by
  unfold get_trend_velocity
  constructor
  · intro h
    rw [if_pos h]
  · intro h
    rw [if_neg h]

/-- Witness for C7: in `velocityDB` the "phone" older-half average is 0 and
the recent-half average is positive, so the velocity is exactly 1. -/
theorem velocity_zero_older_rule_witness :
    olderAvg velocityDB 0 "phone" 48 = 0 ∧ 0 < recentAvg velocityDB 0 "phone" 48 ∧
      get_trend_velocity velocityDB 0 "phone" 48 = 1 := by
  have ho : olderAvg velocityDB 0 "phone" 48 = 0 := rfl
  have hr : recentAvg velocityDB 0 "phone" 48 = (0.5 + 0) / ((1 : ℕ) : ℝ) := rfl
  have hrpos : (0 : ℝ) < recentAvg velocityDB 0 "phone" 48 := by
    rw [hr]; norm_num
  refine ⟨ho, hrpos, ?_⟩
  rw [(velocity_zero_older_rule velocityDB 0 "phone" 48).1 ho, if_pos hrpos]

/-- Characterization of the early-warning loop: a warning is emitted for
exactly the trend records meeting the three conditions. -/
lemma warnLoop_mem (db : DB) (now : ℤ) (threshold : ℝ) (l : List TrendRec)
    (w : WarningRec) :
    w ∈ warnLoop db now threshold l ↔
      ∃ t ∈ l, threshold ≤ t.strength ∧ 0.5 < |t.velocity| ∧
        (check_cross_source_agreement db now t.keyword 24).agreement = true ∧
        w = mkWarning db now t := by
  induction l with
  | nil => simp [warnLoop]
  | cons t rest ih =>
      by_cases h1 : threshold ≤ t.strength
      · by_cases h2 : 0.5 < |t.velocity| ∧
            (check_cross_source_agreement db now t.keyword 24).agreement = true
        · simp only [warnLoop, if_pos h1, if_pos h2, List.mem_cons, ih]
          constructor
          · rintro (rfl | ⟨u, hu, hc⟩)
            · exact ⟨t, Or.inl rfl, h1, h2.1, h2.2, rfl⟩
            · exact ⟨u, Or.inr hu, hc⟩
          · rintro ⟨u, hu | hu, hc⟩
            · subst hu
              exact Or.inl hc.2.2.2
            · exact Or.inr ⟨u, hu, hc⟩
        · simp only [warnLoop, if_pos h1, if_neg h2, List.mem_cons, ih]
          constructor
          · rintro ⟨u, hu, hc⟩
            exact ⟨u, Or.inr hu, hc⟩
          · rintro ⟨u, hu | hu, hc⟩
            · subst hu
              exact absurd ⟨hc.2.1, hc.2.2.1⟩ h2
            · exact ⟨u, hu, hc⟩
      · simp only [warnLoop, if_neg h1, List.mem_cons, ih]
        constructor
        · rintro ⟨u, hu, hc⟩
          exact ⟨u, Or.inr hu, hc⟩
        · rintro ⟨u, hu | hu, hc⟩
          · subst hu
            exact absurd hc.1 h1
          · exact ⟨u, hu, hc⟩

/-- Claim C5: `get_early_warnings` emits a warning for a detected trend if
and only if the trend's strength reaches the threshold, its velocity
exceeds 0.5 in absolute value, and at least two distinct sources mention
the keyword within the fixed 24-hour agreement lookback.  (In particular a
trend failing the two-source agreement emits nothing, whatever its
strength.) -/
theorem early_warning_iff (db : DB) (now : ℤ) (threshold : ℝ) (w : WarningRec) :
    w ∈ get_early_warnings db now threshold ↔
      ∃ t ∈ detect_trends db now 48,
        threshold ≤ t.strength ∧ 0.5 < |t.velocity| ∧
          (check_cross_source_agreement db now t.keyword 24).agreement = true ∧
          w = mkWarning db now t := by
  unfold get_early_warnings
  exact warnLoop_mem db now threshold (detect_trends db now 48) w


/-! # Helper lemmas: forecast producers -/

lemma isInt_pyRound0 (x : ℝ) : ∃ n : ℤ, pyRound0 x = n := ⟨pyRoundInt x, rfl⟩

lemma isInt_max_zero {x : ℝ} (h : ∃ n : ℤ, x = n) : ∃ n : ℤ, max 0 x = n := by
  obtain ⟨n, rfl⟩ := h
  rcases le_total 0 ((n : ℝ)) with hn | hn
  · exact ⟨n, max_eq_right hn⟩
  · exact ⟨0, by rw [max_eq_left hn]; norm_num⟩

lemma sampleStd_nonneg (l : List ℝ) : 0 ≤ sampleStd l := by
  unfold sampleStd
  split
  · norm_num
  · exact Real.sqrt_nonneg _

lemma simple_forecast_model (now : ℤ) (data : List (ℤ × ℝ)) (periods : ℤ) :
    (simple_forecast now data periods).model = "Simple" := by
  unfold simple_forecast
  split <;> rfl

lemma simple_forecast_length (now : ℤ) (data : List (ℤ × ℝ)) (periods : ℤ) :
    (simple_forecast now data periods).forecasts.length = periods.toNat := by
  unfold simple_forecast
  split <;> simp [rangeMapFrom_length]

lemma forecast_arima_length (env : Env) (now : ℤ) (data : List (ℤ × ℝ)) (periods : ℤ) :
    (forecast_arima env now data periods).forecasts.length = periods.toNat := by
  unfold forecast_arima
  split
  · exact simple_forecast_length now data periods
  · split
    · exact simple_forecast_length now data periods
    · simp [rangeMapFrom_length]

lemma forecast_prophet_length (env : Env) (now : ℤ) (data : List (ℤ × ℝ)) (periods : ℤ) :
    (forecast_prophet env now data periods).forecasts.length = periods.toNat := by
  unfold forecast_prophet
  split
  · exact simple_forecast_length now data periods
  · split
    · exact simple_forecast_length now data periods
    · simp [rangeMapFrom_length]

lemma forecast_ensemble_length (env : Env) (now : ℤ) (data : List (ℤ × ℝ)) (periods : ℤ) :
    (forecast_ensemble env now data periods).forecasts.length = periods.toNat := by
  unfold forecast_ensemble
  split
  · exact simple_forecast_length now data periods
  · simp [rangeMapFrom_length]

/-- The default `FPoint` (returned by `getD` past the end of a forecast
list) is the all-zero point. -/
lemma default_fpoint :
    (default : FPoint) = { date := 0, value := 0, lower_bound := 0, upper_bound := 0 } := rfl

/-- The points of `_simple_forecast` on nonempty data. -/
lemma simple_forecast_getD (now : ℤ) (data : List (ℤ × ℝ)) (periods : ℤ) (i : ℕ)
    (hne : data.isEmpty = false) :
    (simple_forecast now data periods).forecasts.getD i default =
      (if i < periods.toNat then simplePoint data i else default) := by
  unfold simple_forecast
  rw [hne]
  simp only [Bool.false_eq_true, if_false, rangeMapFrom_getD, Nat.zero_add]

/-- Every point of the naive producer (in or out of range) has integer
value and bounds, with value and lower bound nonnegative and the lower
bound below the zero-clamped upper bound. -/
lemma simple_forecast_point_props (now : ℤ) (data : List (ℤ × ℝ)) (periods : ℤ) (i : ℕ) :
    (0 ≤ ((simple_forecast now data periods).forecasts.getD i default).value ∧
     0 ≤ ((simple_forecast now data periods).forecasts.getD i default).lower_bound ∧
     ((simple_forecast now data periods).forecasts.getD i default).lower_bound ≤
       max 0 ((simple_forecast now data periods).forecasts.getD i default).upper_bound) ∧
    ((∃ n : ℤ, ((simple_forecast now data periods).forecasts.getD i default).value = n) ∧
     (∃ n : ℤ, ((simple_forecast now data periods).forecasts.getD i default).lower_bound = n) ∧
     (∃ n : ℤ, ((simple_forecast now data periods).forecasts.getD i default).upper_bound = n)) := by
  by_cases hne : data.isEmpty
  · unfold simple_forecast
    rw [if_pos hne, rangeMapFrom_getD]
    split
    · exact ⟨⟨le_refl 0, le_refl 0, by simp⟩, ⟨0, by norm_num⟩, ⟨0, by norm_num⟩,
        ⟨0, by norm_num⟩⟩
    · rw [default_fpoint]
      exact ⟨⟨le_refl 0, le_refl 0, by simp⟩, ⟨0, by norm_num⟩, ⟨0, by norm_num⟩,
        ⟨0, by norm_num⟩⟩
  · rw [simple_forecast_getD now data periods i (by simpa using hne)]
    split
    · unfold simplePoint
      constructor
      · refine ⟨le_max_left _ _, le_max_left _ _, ?_⟩
        have hstd := sampleStd_nonneg (tailWindow data)
        exact max_le_max (le_refl 0) (pyRound0_mono (by linarith))
      · exact ⟨isInt_max_zero (isInt_pyRound0 _), isInt_max_zero (isInt_pyRound0 _),
          isInt_pyRound0 _⟩
    · rw [default_fpoint]
      exact ⟨⟨le_refl 0, le_refl 0, by simp⟩, ⟨0, by norm_num⟩, ⟨0, by norm_num⟩,
        ⟨0, by norm_num⟩⟩


/-! # Claim theorems: forecasting engine -/

/-- Claim C3 counterexample: on the declining three-day series
`[4, 2, 0]` (window average 2, sample std 2, slope −4/3), the ninth naive
forecast point has lower bound clamped to 0 but upper bound −5 — the code
never clamps upper bounds, so `upper_bound ≥ lower_bound` fails. -/
theorem simple_forecast_bound_violation :
    ((simple_forecast 0 declineSeries 9).forecasts.getD 8 default).lower_bound = 0 ∧
    ((simple_forecast 0 declineSeries 9).forecasts.getD 8 default).upper_bound = -5 := by
  have htail : tailWindow declineSeries = [(4 : ℝ), 2, 0] := rfl
  have hmean : listMean [(4 : ℝ), 2, 0] = 2 := by
    unfold listMean
    norm_num
  have hfv : simpleFV declineSeries 8 = -26 / 3 := by
    unfold simpleFV
    rw [if_pos (by norm_num [declineSeries] : 3 ≤ declineSeries.length)]
    rw [htail, hmean]
    rw [show (seriesVals declineSeries).getD (declineSeries.length - 1) 0 = (0 : ℝ) from rfl]
    rw [show (seriesVals declineSeries).getD (declineSeries.length - 3) 0 = (4 : ℝ) from rfl]
    norm_num
  have hstd : sampleStd (tailWindow declineSeries) = 2 := by
    rw [htail]
    unfold sampleStd
    rw [if_neg (by norm_num)]
    rw [hmean]
    have hsum : ((List.map (fun x => (x - (2 : ℝ)) ^ 2) [(4 : ℝ), 2, 0]).sum /
        ((([(4 : ℝ), 2, 0]).length : ℝ) - 1)) = 4 := by
      norm_num [List.map]
    rw [hsum, show (4 : ℝ) = 2 ^ 2 by norm_num, Real.sqrt_sq (by norm_num : (0 : ℝ) ≤ 2)]
  have hget : (simple_forecast 0 declineSeries 9).forecasts.getD 8 default =
      simplePoint declineSeries 8 := by
    rw [simple_forecast_getD 0 declineSeries 9 8 rfl, if_pos (by decide)]
  constructor
  · rw [hget]
    show max 0 (pyRound0 (simpleFV declineSeries 8 -
      2 * sampleStd (tailWindow declineSeries))) = 0
    rw [hfv, hstd, show (-26 / 3 : ℝ) - 2 * 2 = -38 / 3 by norm_num]
    rw [show pyRound0 (-38 / 3 : ℝ) = ((-13 : ℤ) : ℝ) by
      unfold pyRound0
      rw [pyRoundInt_eq_floor (n := -13) (by norm_num) (by norm_num)]]
    rw [max_eq_left (by norm_num : ((-13 : ℤ) : ℝ) ≤ 0)]
  · rw [hget]
    show pyRound0 (simpleFV declineSeries 8 +
      2 * sampleStd (tailWindow declineSeries)) = -5
    rw [hfv, hstd, show (-26 / 3 : ℝ) + 2 * 2 = -14 / 3 by norm_num]
    unfold pyRound0
    rw [pyRoundInt_eq_floor (n := -5) (by norm_num) (by norm_num)]
    norm_num

/-- Claim C3 (amended): every naive-producer result has exactly
`max(days_ahead, 0)` points, and every point has `value ≥ 0` and
`lower_bound ≥ 0`; `upper_bound ≥ lower_bound` holds whenever the
(unclamped) upper bound is nonnegative, i.e.
`lower_bound ≤ max 0 upper_bound`. -/
theorem simple_forecast_clamped (now : ℤ) (data : List (ℤ × ℝ)) (periods : ℤ) :
    (simple_forecast now data periods).forecasts.length = periods.toNat ∧
    ∀ i : ℕ,
      0 ≤ ((simple_forecast now data periods).forecasts.getD i default).value ∧
      0 ≤ ((simple_forecast now data periods).forecasts.getD i default).lower_bound ∧
      ((simple_forecast now data periods).forecasts.getD i default).lower_bound ≤
        max 0 ((simple_forecast now data periods).forecasts.getD i default).upper_bound :=
  ⟨simple_forecast_length now data periods,
   fun i => (simple_forecast_point_props now data periods i).1⟩

/-- Claim C2 counterexample: with a constant-0 ARIMA fit and a constant-1
Prophet fit on a 7-day series, the weighted combination at step 0 is
`0.4·0 + 0.6·1 = 0.6`, but the stored ensemble value is `round(0.6) = 1`:
the ensemble value is rounded, not the exact combination. -/
theorem ensemble_value_not_exact :
    ((forecast_ensemble constEnv 0 weekSeries 7).forecasts.getD 0 default).value = 1 ∧
    0.4 * ((forecast_arima constEnv 0 weekSeries 7).forecasts.getD 0 default).value +
      0.6 * ((forecast_prophet constEnv 0 weekSeries 7).forecasts.getD 0 default).value =
      3 / 5 ∧
    (1 : ℝ) ≠ 3 / 5 := by
  have ha : ((forecast_arima constEnv 0 weekSeries 7).forecasts.getD 0 default).value =
      max 0 (0 : ℝ) := rfl
  have hp : ((forecast_prophet constEnv 0 weekSeries 7).forecasts.getD 0 default).value =
      max 0 (1 : ℝ) := rfl
  have he : ((forecast_ensemble constEnv 0 weekSeries 7).forecasts.getD 0 default).value =
      pyRound0 (0.4 * (max 0 (0 : ℝ)) + 0.6 * (max 0 (1 : ℝ))) := rfl
  have harg : (0.4 : ℝ) * (max 0 (0 : ℝ)) + 0.6 * (max 0 (1 : ℝ)) = 3 / 5 := by
    rw [max_self, max_eq_right (by norm_num : (0 : ℝ) ≤ 1)]
    norm_num
  refine ⟨?_, ?_, by norm_num⟩
  · rw [he, harg]
    unfold pyRound0
    rw [pyRoundInt_eq_ceil (n := 0) (by norm_num) (by norm_num)]
    norm_num
  · rw [ha, hp]
    exact harg

/-- Claim C2 (amended): at every step the ensemble stores the Python
`round(·, 0)` of the 0.4/0.6-weighted combination of the two producers'
values, the rounded zero-clamped minimum of their lower bounds, and the
rounded maximum of their upper bounds. -/
theorem ensemble_combination_rule (env : Env) (now : ℤ) (data : List (ℤ × ℝ))
    (periods : ℤ) (i : ℕ) :
    ((forecast_ensemble env now data periods).forecasts.getD i default).value =
      pyRound0 (0.4 *
          ((forecast_arima env now data periods).forecasts.getD i default).value +
        0.6 * ((forecast_prophet env now data periods).forecasts.getD i default).value) ∧
    ((forecast_ensemble env now data periods).forecasts.getD i default).lower_bound =
      pyRound0 (max 0 (min
        ((forecast_arima env now data periods).forecasts.getD i default).lower_bound
        ((forecast_prophet env now data periods).forecasts.getD i default).lower_bound)) ∧
    ((forecast_ensemble env now data periods).forecasts.getD i default).upper_bound =
      pyRound0 (max
        ((forecast_arima env now data periods).forecasts.getD i default).upper_bound
        ((forecast_prophet env now data periods).forecasts.getD i default).upper_bound) := by
  by_cases hcond : (data.isEmpty || decide (data.length < 7)) = true
  · have hor : data.isEmpty = true ∨ data.length < 7 := by
      simpa [Bool.or_eq_true, decide_eq_true_iff] using hcond
    have he : forecast_ensemble env now data periods = simple_forecast now data periods := by
      unfold forecast_ensemble
      rw [if_pos hcond]
    have haq : forecast_arima env now data periods = simple_forecast now data periods := by
      unfold forecast_arima
      rw [if_pos (by rcases hor with h | h <;> simp [h])]
    have hpq : forecast_prophet env now data periods = simple_forecast now data periods := by
      unfold forecast_prophet
      rw [if_pos (by rcases hor with h | h <;> simp [h])]
    rw [he, haq, hpq]
    obtain ⟨⟨hv0, hl0, _⟩, ⟨nv, hnv⟩, ⟨nl, hnl⟩, ⟨nu, hnu⟩⟩ :=
      simple_forecast_point_props now data periods i
    refine ⟨?_, ?_, ?_⟩
    · rw [show (0.4 : ℝ) *
          ((simple_forecast now data periods).forecasts.getD i default).value +
          0.6 * ((simple_forecast now data periods).forecasts.getD i default).value =
          ((simple_forecast now data periods).forecasts.getD i default).value by ring]
      rw [hnv, pyRound0_intCast]
    · rw [min_self, max_eq_right hl0, hnl, pyRound0_intCast]
    · rw [max_self, hnu, pyRound0_intCast]
  · have hc : (data.isEmpty || decide (data.length < 7)) = false := by
      simpa using hcond
    unfold forecast_ensemble
    rw [hc]
    simp only [Bool.false_eq_true, if_false, rangeMapFrom_getD, Nat.zero_add]
    by_cases hi : i < periods.toNat
    · rw [if_pos hi]
      exact ⟨rfl, rfl, rfl⟩
    · rw [if_neg hi]
      have hlen : ¬ i < ((forecast_arima env now data periods).forecasts.length) := by
        rw [forecast_arima_length]
        exact hi
      have hlen2 : ¬ i < ((forecast_prophet env now data periods).forecasts.length) := by
        rw [forecast_prophet_length]
        exact hi
      rw [List.getD_eq_getElem?_getD, List.getElem?_eq_none (by omega), Option.getD_none]
      rw [List.getD_eq_getElem?_getD, List.getElem?_eq_none (by omega), Option.getD_none]
      rw [default_fpoint]
      norm_num [pyRound0_zero, min_self, max_self]

/-- Claim C4: whenever the prepared series has fewer than 7 observations
(including none), every model choice returns the naive producer's output —
`model = "Simple"` with exactly `_simple_forecast`'s points — and no error
is propagated (every embedded path is total). -/
theorem short_series_fallback (env : Env) (db : DB) (now : ℤ) (cat : String)
    (days_ahead : ℤ) (model : String)
    (h : (prepare_time_series_data db now cat 14).length < 7) :
    (forecast_category env db now cat days_ahead model).model = "Simple" ∧
    (forecast_category env db now cat days_ahead model).forecasts =
      (simple_forecast now (prepare_time_series_data db now cat 14) days_ahead).forecasts := by
  simp only [forecast_category]
  by_cases hemp : (prepare_time_series_data db now cat 14).isEmpty
  · rw [if_pos hemp]
    exact ⟨simple_forecast_model _ _ _, rfl⟩
  · rw [if_neg hemp]
    have hlt : decide ((prepare_time_series_data db now cat 14).length < 7) = true :=
      decide_eq_true h
    have haq : forecast_arima env now (prepare_time_series_data db now cat 14) days_ahead =
        simple_forecast now (prepare_time_series_data db now cat 14) days_ahead := by
      unfold forecast_arima
      rw [if_pos (by simp [hlt])]
    have hpq : forecast_prophet env now (prepare_time_series_data db now cat 14) days_ahead =
        simple_forecast now (prepare_time_series_data db now cat 14) days_ahead := by
      unfold forecast_prophet
      rw [if_pos (by simp [hlt])]
    have heq : forecast_ensemble env now (prepare_time_series_data db now cat 14) days_ahead =
        simple_forecast now (prepare_time_series_data db now cat 14) days_ahead := by
      unfold forecast_ensemble
      rw [if_pos (by simp [hlt])]
    split_ifs <;> simp [haq, hpq, heq, simple_forecast_model]

/-- Witness for C4: the empty store prepares an empty (hence short) series
and `forecast_category` with the ensemble model still returns a
`model = "Simple"` result. -/
theorem short_series_fallback_witness :
    (prepare_time_series_data emptyDB 0 "phones" 14).length < 7 ∧
    (forecast_category zeroEnv emptyDB 0 "phones" 3 "ensemble").model = "Simple" := by
  have h : (prepare_time_series_data emptyDB 0 "phones" 14).length < 7 := by decide
  exact ⟨h, (short_series_fallback zeroEnv emptyDB 0 "phones" 3 "ensemble" h).1⟩

/-- Claim C8 counterexample: two equal consecutive daily sales (5, 5) give
a 2-point prepared series with equal first and last observations, yet the
attached trend is `DOWN` — the code labels `UP` only on strict increase and
otherwise `DOWN`, never `STABLE`, for series of length ≥ 2. -/
theorem trend_equal_endpoints_down :
    (prepare_time_series_data salesPairDB 1 "phones" 14).length = 2 ∧
    (seriesVals (prepare_time_series_data salesPairDB 1 "phones" 14)).getD 0 0 =
      (seriesVals (prepare_time_series_data salesPairDB 1 "phones" 14)).getD 1 0 ∧
    (forecast_category zeroEnv salesPairDB 1 "phones" 7 "simple").trend = some "DOWN" := by
  have hdata : prepare_time_series_data salesPairDB 1 "phones" 14 =
      [((0 : ℤ), (5 : ℝ) + 0), (1, 5 + 0)] := rfl
  refine ⟨by rw [hdata]; rfl, by rw [hdata]; rfl, ?_⟩
  simp only [forecast_category, hdata]
  rw [if_neg (by simp)]
  show some _ = some "DOWN"
  congr 1
  rw [if_pos (by norm_num)]
  rw [show (seriesVals [((0 : ℤ), (5 : ℝ) + 0), (1, 5 + 0)]).getD 0 0 = 5 + 0 from rfl]
  rw [show (seriesVals [((0 : ℤ), (5 : ℝ) + 0), (1, 5 + 0)]).getD
      (List.length [((0 : ℤ), (5 : ℝ) + 0), (1, 5 + 0)] - 1) 0 = 5 + 0 from rfl]
  exact if_neg (lt_irrefl ((5 : ℝ) + 0))

/-- Claim C8 (amended): the attached trend is `UP` if the last prepared
observation strictly exceeds the first, `DOWN` otherwise (including
equality) when the series has at least 2 observations, `STABLE` for a
1-observation series, and absent (`none`) for an empty series, whose
early-return result carries no metadata. -/
theorem trend_label_rule (env : Env) (db : DB) (now : ℤ) (cat : String)
    (days_ahead : ℤ) (model : String) :
    (forecast_category env db now cat days_ahead model).trend =
      (if (prepare_time_series_data db now cat 14).isEmpty then none
       else some (if 2 ≤ (prepare_time_series_data db now cat 14).length then
           (if (seriesVals (prepare_time_series_data db now cat 14)).getD 0 0 <
               (seriesVals (prepare_time_series_data db now cat 14)).getD
                 ((prepare_time_series_data db now cat 14).length - 1) 0
            then "UP" else "DOWN")
         else "STABLE")) := by
  simp only [forecast_category]
  by_cases hemp : (prepare_time_series_data db now cat 14).isEmpty
  · rw [if_pos hemp, if_pos hemp]
    unfold simple_forecast
    split <;> rfl
  · rw [if_neg hemp]
    rw [if_neg hemp]

/-- Claim C9 counterexample: the core accepts the out-of-range horizon
`days_ahead = 0` and silently returns a well-formed empty-forecast result
instead of failing fast with an invalid-argument signal. -/
theorem nonpositive_horizon_silent :
    forecast_category zeroEnv emptyDB 0 "phones" 0 "simple" =
      { model := "Simple", forecasts := [] } := rfl

/-- Claim C9 (amended): the core performs no window/horizon validation:
for every integer `days_ahead` (non-positive and above 30 included)
`forecast_category` silently returns a well-formed result with
`max(days_ahead, 0)` forecast points; the `[1, 30]` range check exists only
at the serving boundary. -/
theorem forecast_length_no_validation (env : Env) (db : DB) (now : ℤ) (cat : String)
    (days_ahead : ℤ) (model : String) :
    (forecast_category env db now cat days_ahead model).forecasts.length =
      days_ahead.toNat := by
  simp only [forecast_category]
  split
  · exact simple_forecast_length _ _ _
  · split_ifs <;>
      simp [forecast_arima_length, forecast_prophet_length, forecast_ensemble_length,
        simple_forecast_length]

/-- Claim C10: `forecast_all_categories` always returns exactly the five
fixed categories as keys, in order, regardless of the store contents. -/
theorem forecast_all_fixed_categories (env : Env) (db : DB) (now days_ahead : ℤ) :
    (forecast_all_categories env db now days_ahead).map Prod.fst =
      ["phones", "laptops", "fashion", "home", "food"] := by
  simp [forecast_all_categories, forecast_categories]

end Mamo
